import Mathlib

/-!
Shallow embedding of the lobby runtime of the bsc-multiplayer-backend
repository (Go).  Pure functions are translated to Lean functions; the
stateful lobby/lobby-manager operations are translated to explicit
state-passing functions over record types; Go machine integers (uint32,
uint64) are modelled as `Nat` with an explicit `% 2 ^ 32` exactly where the
Go code can overflow; Go panics and Go `error` returns are modelled with
`Option`/`Except`.  Concurrent maps (`util.ConcurrentTypedMap`) are
modelled as association lists with atomic load/store/delete helpers;
websocket connections, logging and wall-clock time are external I/O and
appear only as explicit parameters or recorded outcomes.

A few functions of the repository are referenced by the translated files
but their defining file is not part of the source tree given here
(`NewSpecification`, `ExtractClientIDAndMessageID`, `Serialize`,
`SendDebugInfoToClient`, the event-spec constants, the `meta` package).
Each such definition below carries a doc comment starting with
`Modelled from the spec:` and is written from the specification text
alone.
-/

namespace Bsc

/-! ## reflect.Kind (the subset the registry uses) -/

/-- The `reflect.Kind` values that appear in the message registry code
(`src/internal/messageStructure.go`). `other` stands for every remaining
kind, all of which the Go switches treat through their default branch. -/
inductive ReflectKind where
  | bool | int | int8 | int16 | int32 | int64
  | uint | uint8 | uint16 | uint32 | uint64 | uintptr
  | float32 | float64 | complex64 | complex128
  | string | slice | array | iface | strukt
  | other
  deriving DecidableEq, Repr, Inhabited

/-- Function `isValidKind` of `messageStructure.go`: Go returns `nil`/error, modelled
as `true`/`false`. -/
def isValidKind (kind : ReflectKind) : Bool :=
  match kind with
  | .bool | .int | .int8 | .int16 | .int32 | .int64
  | .uint | .uint8 | .uint16 | .uint32 | .uint64 | .uintptr
  | .float32 | .float64 | .complex64 | .complex128 | .string => true
  | _ => false

/-- Function `isKindOfVariableSize` of `messageStructure.go`. -/
def isKindOfVariableSize (kind : ReflectKind) : Bool :=
  match kind with
  | .string | .slice | .array | .iface | .strukt => true
  | _ => false

/-- Function `sizeOfSerializedKind` of `messageStructure.go`. -/
def sizeOfSerializedKind (kind : ReflectKind) : Nat :=
  match kind with
  | .bool => 1
  | .int8 | .uint8 => 1
  | .int16 | .uint16 => 2
  | .int32 | .uint32 | .float32 => 4
  | .int64 | .uint64 | .float64 | .complex64 => 8
  | .complex128 => 16
  | .string | .slice | .array => 0
  | _ => 0

/-! ## Element descriptors and ComputeStructure -/

/-- Struct `ShortElementDescriptor` of `messageStructure.go` (field order as in the
Go struct). -/
structure ShortElementDescriptor where
  Description : String
  FieldName : String
  Kind : ReflectKind
  deriving DecidableEq, Repr, Inhabited

/-- Struct `MessageElementDescriptor` of `messageStructure.go`. Byte size 0 means
variable size. -/
structure MessageElementDescriptor where
  ByteSize : Nat
  Offset : Nat
  FieldName : String
  Description : String
  Kind : ReflectKind
  deriving DecidableEq, Repr, Inhabited

/-- Function `NewElementDescriptor` of `messageStructure.go`. -/
def NewElementDescriptor (description : String) (fieldName : String)
    (kind : ReflectKind) : ShortElementDescriptor :=
  { Description := description, FieldName := fieldName, Kind := kind }

/-- Constant `MESSAGE_HEADER_SIZE` of `messageStructure.go` (bytes). -/
def MESSAGE_HEADER_SIZE : Nat := 8

/-- Loop body of `ComputeStructure`.  The Go loop walks the reference
structure carrying `offset` (initial value `MESSAGE_HEADER_SIZE`),
`hasVariableSizeElement` and `minimumTotalSize` (initial value `0`); the
Go condition `index != len(shortDescription)-1` is the same as the tail of
the list being nonempty.  The three Go panics are modelled as `none`. -/
def computeStructureLoop :
    List ShortElementDescriptor → Nat → Bool → Nat →
    List MessageElementDescriptor →
    Option (Nat × List MessageElementDescriptor)
  | [], _, _, minimumTotalSize, acc => some (minimumTotalSize, acc)
  | element :: rest, offset, hasVariableSizeElement, minimumTotalSize, acc =>
    if !isValidKind element.Kind then none
    else
      let isVariable := isKindOfVariableSize element.Kind
      if isVariable && hasVariableSizeElement then none
      else if isVariable && !rest.isEmpty then none
      else
        let sizeOfElement := sizeOfSerializedKind element.Kind
        computeStructureLoop rest (offset + sizeOfElement)
          (hasVariableSizeElement || isVariable)
          (minimumTotalSize + sizeOfElement)
          (acc ++ [{ ByteSize := sizeOfElement, Offset := offset,
                     FieldName := element.FieldName,
                     Description := element.Description,
                     Kind := element.Kind }])

/-- Function `ComputeStructure` of `messageStructure.go`.  Panics are modelled as
`none`; on success returns the pair the Go function returns:
`(minimumTotalSize, computedStructure)`.  `messageName` is only used in
the Go panic messages. -/
def ComputeStructure (messageName : String)
    (shortDescription : List ShortElementDescriptor) :
    Option (Nat × List MessageElementDescriptor) :=
  computeStructureLoop shortDescription MESSAGE_HEADER_SIZE false 0 []

/-! ## Encodings, origin types, permissions -/

/-- Modelled from the spec: the `meta.MessageEncoding` enumeration —
"Three encodings: raw binary frames; base16 (hex) text frames; base64 text
frames" (§6); the `meta` package file is not in the given source tree. -/
inductive MessageEncoding where
  | MESSAGE_ENCODING_BINARY
  | MESSAGE_ENCODING_BASE16
  | MESSAGE_ENCODING_BASE64
  deriving DecidableEq, Repr, Inhabited

/-- Modelled from the spec: `meta.RuntimeConfiguration` carries the default
broadcast encoding chosen by the `MESSAGE_ENCODING` option (§6); only the
`Encoding` field is consumed by the translated code
(`CreateLobby` reads `lm.configuration.Encoding`). -/
structure RuntimeConfiguration where
  Encoding : MessageEncoding
  deriving DecidableEq, Repr, Inhabited

/-- Modelled from the spec: `OriginType` — "origin type (owner/guest)" for
clients, plus `Server` as an originator class (§3); its defining file is
not in the given source tree. -/
inductive OriginType where
  | server | owner | guest
  deriving DecidableEq, Repr, Inhabited

/-- Constant `ORIGIN_TYPE_OWNER` referenced by `lobby.go`. -/
def ORIGIN_TYPE_OWNER : OriginType := .owner

/-- Constant `ORIGIN_TYPE_GUEST` referenced by `lobby.go`. -/
def ORIGIN_TYPE_GUEST : OriginType := .guest

/-- Modelled from the spec: `SendPermissions`, "a mapping
{Server, Owner, Guest} → bool" (§3). -/
structure SendPermissions where
  server : Bool
  owner : Bool
  guest : Bool
  deriving DecidableEq, Repr, Inhabited

/-- Map access `permissions[originType]` on a `SendPermissions` value. -/
def SendPermissions.get (p : SendPermissions) : OriginType → Bool
  | .server => p.server
  | .owner => p.owner
  | .guest => p.guest

/-- Modelled from the spec: the canonical originator set `SERVER_ONLY` (§3). -/
def SERVER_ONLY : SendPermissions :=
  { server := true, owner := false, guest := false }

/-- Modelled from the spec: the canonical originator set `OWNER_ONLY` (§3). -/
def OWNER_ONLY : SendPermissions :=
  { server := false, owner := true, guest := false }

/-- Modelled from the spec: the canonical originator set
`OWNER_AND_GUESTS` (§3). -/
def OWNER_AND_GUESTS : SendPermissions :=
  { server := false, owner := true, guest := true }

/-! ## Event specifications -/

/-- Modelled from the spec: an event specification is the immutable record
"{id, name, originators, structure, expectedMinSize, handler}" (§3); its
defining file is not in the given source tree.  The handler function value
is not data and is left out — handler invocation is recorded as a
`dispatched` outcome by the read-loop model below. -/
structure EventSpecification where
  ID : Nat
  Name : String
  SendPermissions : Bsc.SendPermissions
  ExpectedMinSize : Nat
  Structure : List MessageElementDescriptor
  deriving DecidableEq, Repr, Inhabited

/-! ## Byte-level helpers -/

/-- Big-endian assembly of the first four bytes of a list, the model of
`binary.BigEndian.Uint32`. -/
def beUint32 (bytes : List Nat) : Nat :=
  (bytes.take 4).foldl (fun acc b => acc * 256 + b) 0

/-- Little-endian assembly of the first four bytes of a list, the model of
`binary.LittleEndian.Uint32`. -/
def leUint32 (bytes : List Nat) : Nat :=
  ((bytes.take 4).reverse).foldl (fun acc b => acc * 256 + b) 0

/-- Little-endian 4-byte form of a uint32 value, the model of
`binary.LittleEndian.PutUint32` used by `NewClient` in the current
`Client` version (`src/unnamed/part_002`). -/
def leBytesOfUint32 (n : Nat) : List Nat :=
  [n % 256, n / 256 % 256, n / 65536 % 256, n / 16777216 % 256]

/-! ## The PLAYER_MOVE event (spec-modelled registry entry) -/

/-- Name string of the player-move event. -/
def playerMoveName : String := "PlayerMove"

/-- Description string used in the modelled player-move structure. -/
def playerMoveDescID : String := "Player ID"

/-- Field-name string used in the modelled player-move structure. -/
def playerMoveFieldID : String := "playerID"

/-- Description string used in the modelled player-move structure. -/
def playerMoveDescLoc : String := "Colony Location ID"

/-- Field-name string used in the modelled player-move structure. -/
def playerMoveFieldLoc : String := "colonyLocationID"

/-- Modelled from the spec: `PLAYER_MOVE_EVENT`.  The registry file that
declares it is not in the given source tree.  Per §4.3 and scenario 1 of
§8 the tracked `locationID` is the element after the player id, both
32-bit unsigned; offsets are as `ComputeStructure` computes them
(starting at the 8-byte header) and `expectedMinSize` is "the header plus
the sum of fixed element sizes" (§3) = 8 + 4 + 4.  The spec does not give
the numeric message ID; the value 1002 is a model choice and no theorem
below depends on which value it is.  Owner and guests may send moves
(scenario 1 has the owner sending; guests are participants of the same
kind for movement). -/
def PLAYER_MOVE_EVENT : EventSpecification :=
  { ID := 1002
    Name := playerMoveName
    SendPermissions := OWNER_AND_GUESTS
    ExpectedMinSize := 16
    Structure :=
      [ { ByteSize := 4, Offset := 8, FieldName := playerMoveFieldID,
          Description := playerMoveDescID, Kind := .uint32 }
      , { ByteSize := 4, Offset := 12, FieldName := playerMoveFieldLoc,
          Description := playerMoveDescLoc, Kind := .uint32 } ] }

/-! ## Disclosed client state (current version, src/unnamed/part_002) -/

/-- Struct `DisclosedClientState` of the current `Client` version
(`src/unnamed/part_002`): two atomically updated scalars,
`LastKnownPosition` (uint32) and `MSOfLastMessage` (uint64).  The older
copy in `src/src/internal/client.go` lacks `MSOfLastMessage`; the HTTP
state handler in the source tree reads `State.MSOfLastMessage`, so the
part_002 version is the live one and is the one embedded here. -/
structure DisclosedClientState where
  LastKnownPosition : Nat
  MSOfLastMessage : Nat
  deriving DecidableEq, Repr, Inhabited

/-- Function `NewDisclosedClientState` of `src/unnamed/part_002`: Go atomics
start at zero. -/
def NewDisclosedClientState : DisclosedClientState :=
  { LastKnownPosition := 0, MSOfLastMessage := 0 }

/-- Method `DisclosedClientState.UpdateAny` of `src/unnamed/part_002`.
The wall-clock read `uint64(time.Now().UnixNano() / 1000000)` is external
input and is passed as the `nowInMS` parameter.  The Go code indexes
`PLAYER_MOVE_EVENT.Structure[1]` and reads
`remainder[offset : offset+byteSize]` little-endian; the list-slice model
agrees with the Go slice whenever `offset + byteSize ≤ remainder.length`
(out of range, Go panics where the list model truncates — the theorems
about this function assume the in-range case). -/
def UpdateAny (dcs : DisclosedClientState) (messageID : Nat)
    (remainder : List Nat) (nowInMS : Nat) : DisclosedClientState :=
  let afterSwitch :=
    if messageID = PLAYER_MOVE_EVENT.ID then
      let locationIDElement := PLAYER_MOVE_EVENT.Structure.getD 1 default
      { dcs with LastKnownPosition :=
          leUint32 ((remainder.drop locationIDElement.Offset).take
            locationIDElement.ByteSize) }
    else dcs
  { afterSwitch with MSOfLastMessage := nowInMS }

/-! ## Clients -/

/-- Struct `Client` of `src/unnamed/part_002`.  The websocket connection
handle `Conn` is an I/O resource, not data, and is left out; `State` is
held by value (in Go it is a pointer to a `DisclosedClientState`). -/
structure Client where
  ID : Nat
  IDBytes : List Nat
  IGN : String
  type : OriginType
  State : DisclosedClientState
  Encoding : MessageEncoding
  deriving DecidableEq, Repr, Inhabited

/-- Function `NewClient` of `src/unnamed/part_002`: caches the 4-byte
little-endian form of the id and starts with a fresh disclosed state. -/
def NewClient (id : Nat) (IGN : String) (clientType : OriginType)
    (encoding : MessageEncoding) : Client :=
  { ID := id
    IDBytes := leBytesOfUint32 id
    IGN := IGN
    type := clientType
    State := NewDisclosedClientState
    Encoding := encoding }

/-! ## Concurrent typed map (association-list model) -/

/-- Model of `util.ConcurrentTypedMap.Load`: the value stored under a key,
if any. -/
def loadKey {α : Type} (m : List (Nat × α)) (k : Nat) : Option α :=
  (m.find? (fun kv => kv.fst == k)).map Prod.snd

/-- Model of `util.ConcurrentTypedMap.Store`: replace the entry for the key
if present, else append a fresh entry. -/
def storeKey {α : Type} (m : List (Nat × α)) (k : Nat) (v : α) :
    List (Nat × α) :=
  if (loadKey m k).isSome then
    m.map (fun kv => if kv.fst == k then (k, v) else kv)
  else m ++ [(k, v)]

/-- Model of `util.ConcurrentTypedMap.Delete`: drop every entry for the
key. -/
def deleteKey {α : Type} (m : List (Nat × α)) (k : Nat) : List (Nat × α) :=
  m.filter (fun kv => kv.fst != k)

/-- Keys of the association-list map, in range order — the point-in-time
snapshot a `Range` iteration sees. -/
def keysOf {α : Type} (m : List (Nat × α)) : List Nat :=
  m.map Prod.fst

/-! ## Lobby -/

/-- Struct `Lobby` of `src/src/internal/lobby.go`.  `Clients` is the
concurrent map modelled as an association list; `Closing` is the atomic
bool.  The activity tracker, the current activity, the close-queue
channel endpoint and the `BroadcastMessage` closure are omitted: the
closure only fans a buffer out to the clients of `Clients`, so broadcast
calls are recorded by the operation models below as the snapshot of
recipient ids at call time. -/
structure Lobby where
  ID : Nat
  OwnerID : Nat
  ColonyID : Nat
  Clients : List (Nat × Client)
  Closing : Bool
  Encoding : MessageEncoding
  deriving DecidableEq, Repr, Inhabited

/-- Function `NewLobby` of `src/src/internal/lobby.go`: fresh empty client
map, `Closing` at its atomic zero value (false). -/
def NewLobby (id ownerID colonyID : Nat) (encoding : MessageEncoding) :
    Lobby :=
  { ID := id, OwnerID := ownerID, ColonyID := colonyID, Clients := []
    Closing := false, Encoding := encoding }

/-- Constant `JoinErrorNotFound` of `lobby.go` (`type JoinError = int`). -/
def JoinErrorNotFound : Nat := 0

/-- Constant `JoinErrorClosing` of `lobby.go`. -/
def JoinErrorClosing : Nat := 1

/-- Constant `JoinErrorAlreadyInLobby` of `lobby.go`. -/
def JoinErrorAlreadyInLobby : Nat := 2

/-- Modelled from the spec: join errors are tagged
"{NotFound, Closing, AlreadyInLobby, SerializationFailure}" (§7);
`JoinErrorSerializationFailure` is referenced by the lobby manager
(`src/unnamed/part_001`) but the revision of `lobby.go` declaring it is
not in the given source tree; the next free tag value is used. -/
def JoinErrorSerializationFailure : Nat := 3

/-- Struct `LobbyJoinError` of `lobby.go`.  The Go field `Type` is named
`type` here (`Type` is not a usable field name in Lean). -/
structure LobbyJoinError where
  LobbyID : Nat
  type : Nat
  Reason : String
  deriving DecidableEq, Repr, Inhabited

/-- Reason string of the not-found join error (`src/unnamed/part_001`). -/
def reasonNotFound : String := "Lobby does not exist"

/-- Reason string of the closing join error (`src/unnamed/part_001`). -/
def reasonClosing : String := "Lobby is closing"

/-- Reason string of the duplicate-client join error
(`src/unnamed/part_001`). -/
def reasonAlreadyInLobby : String := "User is already in lobby"

/-- Reason string of the serialization-failure join error
(`src/unnamed/part_001`). -/
def reasonSerializationFailure : String :=
  "Failed to serialize player joined message"

/-! ## Lobby manager -/

/-- Struct `LobbyManager` of `src/unnamed/part_001`.  `nextLobbyID` is the
atomic uint32 counter (a `Nat` kept below `2 ^ 32` by the explicit
modulus in `CreateLobby`); the bounded close-queue channel is an I/O
endpoint and is not part of the data the translated operations below
read or write. -/
structure LobbyManager where
  Lobbies : List (Nat × Lobby)
  nextLobbyID : Nat
  acceptsNewLobbies : Bool
  configuration : RuntimeConfiguration
  deriving DecidableEq, Repr, Inhabited

/-- Function `CreateLobbyManager` of `src/unnamed/part_001`: empty lobby
map, counter stored as 1, accepting flag stored as true. -/
def CreateLobbyManager (runtimeConfiguration : RuntimeConfiguration) :
    LobbyManager :=
  { Lobbies := [], nextLobbyID := 1, acceptsNewLobbies := true
    configuration := runtimeConfiguration }

/-- Modulus of the Go `atomic.Uint32` arithmetic. -/
def UINT32_MOD : Nat := 4294967296

/-- Error string of the not-accepting branch of `CreateLobby`
(`src/unnamed/part_001`). -/
def errNotAccepting : String :=
  "Lobby manager is not accepting new lobbies at this point"

/-- Method `LobbyManager.CreateLobby` of `src/unnamed/part_001`.  Returns
the manager state after the call together with the Go
`(*Lobby, error)` result.  The `Range` scan for an existing lobby of the
same colony is the `find?`; `nextLobbyID.Add(1)` returns the new counter
value (uint32 wraparound made explicit); a requested encoding of
`MESSAGE_ENCODING_BINARY` ("no encoding given") is replaced by the
runtime configuration's encoding. -/
def CreateLobby (lm : LobbyManager) (ownerID colonyID : Nat)
    (userSetEncoding : MessageEncoding) :
    LobbyManager × Except String Lobby :=
  if !lm.acceptsNewLobbies then (lm, Except.error errNotAccepting)
  else
    match lm.Lobbies.find? (fun kv => kv.snd.ColonyID == colonyID) with
    | some kv => (lm, Except.ok kv.snd)
    | none =>
      let lobbyID := (lm.nextLobbyID + 1) % UINT32_MOD
      let lm1 := { lm with nextLobbyID := lobbyID }
      let encodingToUse :=
        if userSetEncoding = MessageEncoding.MESSAGE_ENCODING_BINARY then
          lm.configuration.Encoding
        else userSetEncoding
      let lobby := NewLobby lobbyID ownerID colonyID encodingToUse
      ({ lm1 with Lobbies := storeKey lm1.Lobbies lobbyID lobby },
       Except.ok lobby)

/-- Method `LobbyManager.IsJoinPossible` of `src/unnamed/part_001`.  Pure
check, no state change.  The fire-and-forget
`MainBackend.CloseColony(colonyID, colonyOwnerID)` issued in the
not-found branch is outbound HTTP I/O and is not modelled. -/
def IsJoinPossible (lm : LobbyManager)
    (lobbyID clientID colonyID colonyOwnerID : Nat) :
    Option LobbyJoinError :=
  match loadKey lm.Lobbies lobbyID with
  | none => some { LobbyID := lobbyID, type := JoinErrorNotFound,
                   Reason := reasonNotFound }
  | some lobby =>
    if lobby.Closing then
      some { LobbyID := lobbyID, type := JoinErrorClosing,
             Reason := reasonClosing }
    else if (loadKey lobby.Clients clientID).isSome then
      some { LobbyID := lobbyID, type := JoinErrorAlreadyInLobby,
             Reason := reasonAlreadyInLobby }
    else none

/-! ## Joining a lobby -/

/-- Struct `PlayerJoinedMessageDTO` built by `JoinLobby`
(`src/unnamed/part_001`). -/
structure PlayerJoinedMessageDTO where
  PlayerID : Nat
  IGN : String
  deriving DecidableEq, Repr, Inhabited

/-- Bytes of a Go string (model: code points of its characters; only the
length/shape of the buffer matters to the claims below). -/
def stringBytes (s : String) : List Nat :=
  s.data.map Char.toNat

/-- Modelled from the spec: `Serialize(PLAYER_JOINED_EVENT, dto)` —
"Writes header-less payload by element order using each element's kind.
String is length-terminated by the frame boundary.  Fails with
`SerializationFailure` on kind mismatch" (§4.2).  The codec file is not
in the given source tree.  For this DTO the kinds match the structure
(uint32 then string), so serialization succeeds with the id bytes
followed by the IGN bytes; the `Except` shape keeps the Go error branch
of the caller.  Big-endian is one of the two byte orders the source
mixes (§9 open question); no claim below depends on the choice. -/
def SerializePlayerJoined (dto : PlayerJoinedMessageDTO) :
    Except String (List Nat) :=
  Except.ok ([dto.PlayerID / 16777216 % 256, dto.PlayerID / 65536 % 256,
              dto.PlayerID / 256 % 256, dto.PlayerID % 256]
             ++ stringBytes dto.IGN)

/-- Result record of the `JoinLobby` model: the manager state after the
call, the Go `*LobbyJoinError` result, and — when the `PLAYER_JOINED`
broadcast happened — the snapshot of client ids the broadcast fanned out
to (the keys of the lobby's client map at the instant
`BroadcastMessage` was invoked). -/
structure JoinOutcome where
  manager : LobbyManager
  error : Option LobbyJoinError
  broadcastRecipients : Option (List Nat)
  deriving DecidableEq, Repr, Inhabited

/-- Method `LobbyManager.JoinLobby` of `src/unnamed/part_001`.  Checks
lobby existence, closing flag and duplicate client; builds the client
(`util.Ternary(lobby.OwnerID == clientID, ORIGIN_TYPE_OWNER,
ORIGIN_TYPE_GUEST)`); serializes the `PLAYER_JOINED` message; broadcasts
it to the current client map; only then stores the new client.  Spawning
the per-session read loop is control flow, not state, and is not part of
the returned record. -/
def JoinLobby (lm : LobbyManager) (lobbyID clientID : Nat)
    (clientIGN : String) : JoinOutcome :=
  match loadKey lm.Lobbies lobbyID with
  | none =>
    { manager := lm
      error := some { LobbyID := lobbyID, type := JoinErrorNotFound,
                      Reason := reasonNotFound }
      broadcastRecipients := none }
  | some lobby =>
    if lobby.Closing then
      { manager := lm
        error := some { LobbyID := lobbyID, type := JoinErrorClosing,
                        Reason := reasonClosing }
        broadcastRecipients := none }
    else if (loadKey lobby.Clients clientID).isSome then
      { manager := lm
        error := some { LobbyID := lobbyID, type := JoinErrorAlreadyInLobby,
                        Reason := reasonAlreadyInLobby }
        broadcastRecipients := none }
    else
      let client := NewClient clientID clientIGN
        (if lobby.OwnerID == clientID then ORIGIN_TYPE_OWNER
         else ORIGIN_TYPE_GUEST) lobby.Encoding
      match SerializePlayerJoined { PlayerID := client.ID,
                                    IGN := client.IGN } with
      | Except.error _ =>
        { manager := lm
          error := some { LobbyID := lobbyID,
                          type := JoinErrorSerializationFailure,
                          Reason := reasonSerializationFailure }
          broadcastRecipients := none }
      | Except.ok _msg =>
        let recipients := keysOf lobby.Clients
        let lobby2 :=
          { lobby with Clients := storeKey lobby.Clients client.ID client }
        { manager := { lm with Lobbies := storeKey lm.Lobbies lobbyID lobby2 }
          error := none
          broadcastRecipients := some recipients }

/-- Client value that the success path of `JoinLobby` constructs. -/
def joinedClient (L : Lobby) (clientID : Nat) (clientIGN : String) :
    Client :=
  NewClient clientID clientIGN
    (if L.OwnerID == clientID then ORIGIN_TYPE_OWNER else ORIGIN_TYPE_GUEST)
    L.Encoding

/-- Lobby state after the success path of `JoinLobby` stored the new
client. -/
def lobbyAfterJoin (L : Lobby) (clientID : Nat) (clientIGN : String) :
    Lobby :=
  let c := joinedClient L clientID clientIGN
  { L with Clients := storeKey L.Clients clientID c }

/-! ## Removing a client -/

/-- Panic description for the nil-pointer dereference in the not-found
branch of `RemoveClient`. -/
def panicNilClientDeref : String :=
  "runtime error: invalid memory address or nil pointer dereference"

/-- Method `Lobby.RemoveClient` of `src/src/internal/lobby.go`.  The Go
line `client, exists := lobby.Clients.Load(client.ID)` sits in the same
block as the parameter list, so it REASSIGNS the parameter `client`; in
the `!exists` branch the following `log.Printf(..., client.ID, ...)`
dereferences the nil load result and panics (modelled as
`Except.error`).  In the found branch the loaded client is deleted by
its own `ID`, its connection closed, and `PLAYER_LEFT` is broadcast —
the returned list is the snapshot of recipient ids of that broadcast
(the keys remaining after the deletion). -/
def RemoveClient (lobby : Lobby) (client : Client) :
    Except String (Lobby × List Nat) :=
  match loadKey lobby.Clients client.ID with
  | none => Except.error panicNilClientDeref
  | some c =>
    let lobby2 := { lobby with Clients := deleteKey lobby.Clients c.ID }
    Except.ok (lobby2, keysOf lobby2.Clients)

/-! ## Header parsing and the read-loop dispatch -/

/-- Error string of the short-header parse failure (§4.2). -/
def errMalformedHeader : String := "MalformedHeader"

/-- Error string of the unknown-message parse failure (§4.2). -/
def errUnknownMessage : String := "UnknownMessage"

/-- Error string of the short-payload parse failure (§4.2). -/
def errPayloadTooShort : String := "PayloadTooShort"

/-- Error string of the ill-formed variable element parse failure (§4.2). -/
def errBadVariableElement : String := "BadVariableElement"

/-- Modelled from the spec: `ExtractClientIDAndMessageID(bytes)` — "Fails
with `MalformedHeader` if length < 8, `UnknownMessage` if ID unknown,
`PayloadTooShort` if `len(bytes) < spec.expectedMinSize`,
`BadVariableElement` if the terminal variable-length element would be
ill-formed (e.g., empty when required)" (§4.2); the codec file is not in
the given source tree.  The registry lookup is over the explicit
`registry` list; the header is sender id then message id, four bytes
each (§3), read big-endian (one of the two byte orders the source mixes,
§9 — no claim below depends on the choice); on success the header is
stripped and the payload returned.  The variable-element check is read
as: a spec whose last element is variable-size rejects a message with
zero bytes for it. -/
def ExtractClientIDAndMessageID (registry : List EventSpecification)
    (msg : List Nat) : Except String (Nat × EventSpecification × List Nat) :=
  if msg.length < 8 then Except.error errMalformedHeader
  else
    let senderID := beUint32 (msg.take 4)
    let messageID := beUint32 ((msg.drop 4).take 4)
    match registry.find? (fun s => s.ID == messageID) with
    | none => Except.error errUnknownMessage
    | some spec =>
      if msg.length < spec.ExpectedMinSize then
        Except.error errPayloadTooShort
      else if (spec.Structure.getLast?.elim false
                 (fun el => el.ByteSize == 0))
              && msg.length == spec.ExpectedMinSize then
        Except.error errBadVariableElement
      else Except.ok (senderID, spec, msg.drop 8)

/-- Addressee of a `SendDebugInfoToClient` call made by the read loop:
either an actual client value, or the nil `*Client` that a failed map
load produced (the Go code passes that nil pointer on). -/
inductive DebugTarget where
  | toClient (c : Client)
  | toNil
  deriving DecidableEq, Repr

/-- Observable outcome of one post-decode iteration of the read loop of
`Lobby.handleConnection` (`src/src/internal/lobby.go`, lines 147-185):
either a `SendDebugInfoToClient(code, …)` call after which the loop
continues with no dispatch, or the invocation of
`processClientMessage` — the message is passed to the spec's handler —
acting for the loaded client. -/
inductive StepOutcome where
  | sendDebug (code : Nat) (target : DebugTarget)
  | dispatched (acting : Client) (spec : EventSpecification)
      (remainder : List Nat)
  deriving DecidableEq, Repr

/-- Iteration body of the read loop of `Lobby.handleConnection` from the
parse call onward (`src/src/internal/lobby.go`, lines 147-185), for a
frame already decoded to raw bytes `msg` (the hex-decode of text frames
and the frame-type check sit upstream and do not touch these branches).
`sessionClient` is the `client` parameter of `handleConnection`; the Go
line `client, clientExists := lobby.Clients.Load(clientID)` inside the
`for` block declares a NEW `client` shadowing the parameter, so on a
failed load the 401 debug is addressed to the nil load result
(`DebugTarget.toNil`), not to the session client; on a successful load
the permission check and the dispatch act for the LOADED client. -/
def lobbyDispatch (clients : List (Nat × Client))
    (registry : List EventSpecification) (sessionClient : Client)
    (msg : List Nat) : StepOutcome :=
  match ExtractClientIDAndMessageID registry msg with
  | Except.error _ => StepOutcome.sendDebug 400 (.toClient sessionClient)
  | Except.ok (clientID, spec, remainder) =>
    match loadKey clients clientID with
    | none => StepOutcome.sendDebug 401 .toNil
    | some client =>
      if !(spec.SendPermissions.get client.type) then
        StepOutcome.sendDebug 401 (.toClient client)
      else
        StepOutcome.dispatched client spec remainder

/-! ## Further registry entries and concrete data used by the theorems -/

/-- Constant `SERVER_ID` of `src/unnamed/part_000`: `math.MaxUint32`. -/
def SERVER_ID : Nat := 4294967295

/-- Name string of the game-won event of `src/unnamed/part_003`. -/
def gameWonName : String := "AsteroidsGameWon"

/-- Event `GAME_WON_EVENT` of `src/unnamed/part_003`:
`NewSpecification(3004, "AsteroidsGameWon", SERVER_ONLY,
REFERENCE_STRUCTURE_EMPTY, NO_HANDLER_YET)`.  `NewSpecification` itself is
not in the given source tree; the expected minimum size is modelled from
the spec formula (§3): header plus no fixed elements = 8. -/
def GAME_WON_EVENT : EventSpecification :=
  { ID := 3004, Name := gameWonName, SendPermissions := SERVER_ONLY
    ExpectedMinSize := 8, Structure := [] }

/-- Description string of the difficulty-select structure quoted in
`src/src/internal/lobby.go` (lines 212-213). -/
def minigameIDDesc : String := "Minigame ID"

/-- Field-name string of the difficulty-select structure. -/
def minigameIDField : String := "minigameID"

/-- Description string of the difficulty-select structure. -/
def difficultyIDDesc : String := "Difficulty ID"

/-- Field-name string of the difficulty-select structure. -/
def difficultyIDField : String := "difficultyID"

/-- Name string used for the difficulty-select reference structure. -/
def difficultySelectName : String := "DifficultySelectForMinigame"

/-- Sample runtime configuration: default broadcast encoding base16. -/
def cfg0 : RuntimeConfiguration :=
  { Encoding := .MESSAGE_ENCODING_BASE16 }

/-- Shorthand for the base16 encoding used by the samples. -/
def enc16 : MessageEncoding := .MESSAGE_ENCODING_BASE16

/-- Sample in-game name. -/
def ignA : String := "OwnerPlayer"

/-- Sample in-game name. -/
def ignB : String := "GuestPlayer"

/-- Sample in-game name. -/
def ignX : String := "Impostor"

/-- Sample owner client, id 1. -/
def clientA : Client := NewClient 1 ignA ORIGIN_TYPE_OWNER enc16

/-- Sample guest client, id 2. -/
def clientB : Client := NewClient 2 ignB ORIGIN_TYPE_GUEST enc16

/-- Sample lobby client map holding the owner (1) and a guest (2). -/
def clientsEx : List (Nat × Client) := [(1, clientA), (2, clientB)]

/-- Sample registry with a player-move entry and a server-only entry. -/
def registryEx : List EventSpecification :=
  [PLAYER_MOVE_EVENT, GAME_WON_EVENT]

/-- Sample move payload: player id 7 big-endian, then location id 5
little-endian. -/
def payloadMove : List Nat := [0, 0, 0, 7, 5, 0, 0, 0]

/-- Wire frame with header sender 2, message 1002, then `payloadMove`. -/
def msgFromB : List Nat := [0, 0, 0, 2, 0, 0, 3, 234] ++ payloadMove

/-- Wire frame with header sender 9 (no such client), message 1002. -/
def msgUnknownSender : List Nat := [0, 0, 0, 9, 0, 0, 3, 234] ++ payloadMove

/-- Wire frame with header sender 2, message 3004 (server-only, empty
payload). -/
def msgUnauthorized : List Nat := [0, 0, 0, 2, 0, 0, 11, 188]

/-- Sample open lobby, id 2, owner 7, colony 42. -/
def lobbyOpen : Lobby := NewLobby 2 7 42 enc16

/-- Sample manager holding only `lobbyOpen`. -/
def lm5 : LobbyManager :=
  { Lobbies := [(2, lobbyOpen)], nextLobbyID := 2
    acceptsNewLobbies := true, configuration := cfg0 }

/-- Sample closing lobby, id 5, owner 1, colony 42, one resident owner
client. -/
def lobbyClosed : Lobby :=
  { NewLobby 5 1 42 enc16 with Clients := [(1, clientA)], Closing := true }

/-- Sample manager holding only the closing lobby. -/
def lmClosed : LobbyManager :=
  { Lobbies := [(5, lobbyClosed)], nextLobbyID := 5
    acceptsNewLobbies := true, configuration := cfg0 }

/-- Sample open lobby with the owner (id 1) already resident. -/
def lobbyJ : Lobby :=
  { NewLobby 5 1 42 enc16 with Clients := [(1, clientA)] }

/-- Sample manager holding only `lobbyJ`. -/
def lmJoin : LobbyManager :=
  { Lobbies := [(5, lobbyJ)], nextLobbyID := 5
    acceptsNewLobbies := true, configuration := cfg0 }

/-- Sample validated move payload: 12 leading bytes, then location id 5
little-endian. -/
def remMove : List Nat := List.replicate 12 0 ++ [5, 0, 0, 0]

/-- Sample zeroed disclosed state. -/
def dcs0 : DisclosedClientState := { LastKnownPosition := 0, MSOfLastMessage := 0 }

/-- Sample lobby holding only the guest client 2. -/
def lobbyRem : Lobby :=
  { NewLobby 9 1 77 enc16 with Clients := [(2, clientB)] }

/-! ## Helper lemmas about the association-list map -/

theorem loadKey_eq_none_iff {α : Type} (m : List (Nat × α)) (k : Nat) :
    loadKey m k = none ↔ ∀ kv ∈ m, kv.fst ≠ k := by
  simp [loadKey, List.find?_eq_none]

theorem not_mem_keysOf_of_loadKey_eq_none {α : Type} {m : List (Nat × α)}
    {k : Nat} (h : loadKey m k = none) : k ∉ keysOf m := by
  rw [loadKey_eq_none_iff] at h
  intro hmem
  obtain ⟨kv, hkv, hfst⟩ := List.mem_map.mp hmem
  exact h kv hkv hfst

theorem loadKey_deleteKey_self {α : Type} (m : List (Nat × α)) (k : Nat) :
    loadKey (deleteKey m k) k = none := by
  rw [loadKey_eq_none_iff]
  intro kv hkv
  have h := (List.mem_filter.mp hkv).2
  simpa using h

theorem storeKey_of_loadKey_eq_none {α : Type} {m : List (Nat × α)}
    {k : Nat} (v : α) (h : loadKey m k = none) :
    storeKey m k v = m ++ [(k, v)] := by
  simp [storeKey, h]

theorem loadKey_found_key_and_mem {α : Type} {m : List (Nat × α)} {k : Nat}
    {v : α} (h : loadKey m k = some v) : (k, v) ∈ m := by
  unfold loadKey at h
  cases hf : m.find? (fun kv => kv.fst == k) with
  | none => rw [hf] at h; simp at h
  | some kv =>
    rw [hf] at h
    simp at h
    have hpred := List.find?_some hf
    have hmem := List.mem_of_find?_eq_some hf
    have hk : kv.fst = k := by simpa using hpred
    have : kv = (k, v) := by
      cases kv with
      | mk a b => simp at hk h ⊢; exact ⟨hk, h⟩
    rw [this] at hmem
    exact hmem

/-! ## C2 — ComputeStructure's returned minimum size -/

/-- C2: the claim states that the minimum total size returned by
`ComputeStructure` equals 8 (the header size) plus the sum of the byte
sizes of the fixed-size elements.  The function's own doc comment promises
the "minimum total size of any message", and a message is an 8-byte header
plus payload (§3), yet `minimumTotalSize` starts at 0 while only `offset`
starts at `MESSAGE_HEADER_SIZE`: for two uint32 elements the function
returns 8 = 4 + 4, not 8 + (4 + 4) = 16 — the code contradicts its own
documentation (code bug). -/
theorem c2_computeStructure_misses_header :
    ComputeStructure difficultySelectName
      [NewElementDescriptor minigameIDDesc minigameIDField .uint32,
       NewElementDescriptor difficultyIDDesc difficultyIDField .uint32]
    = some (8,
        [{ ByteSize := 4, Offset := 8, FieldName := minigameIDField,
           Description := minigameIDDesc, Kind := .uint32 },
         { ByteSize := 4, Offset := 12, FieldName := difficultyIDField,
           Description := difficultyIDDesc, Kind := .uint32 }])
    ∧ (8 : Nat) ≠ MESSAGE_HEADER_SIZE + (4 + 4) :=
  ⟨rfl, by decide⟩

/-! ## C5 — SERVER_ID is not rejected as a client id -/

/-- C5: the claim states that no client with id `SERVER_ID = 0xFFFFFFFF`
is ever created or inserted.  `JoinLobby` performs no such check: on an
open lobby a join with clientID 4294967295 succeeds and stores a client
under the reserved id (code bug — the spec reserves the value for
server-originated messages and the constant `SERVER_ID` of
`src/unnamed/part_000` is exactly this value). -/
theorem c5_server_id_join_not_rejected :
    SERVER_ID = 4294967295
    ∧ (JoinLobby lm5 2 SERVER_ID ignX).error = none
    ∧ loadKey (JoinLobby lm5 2 SERVER_ID ignX).manager.Lobbies 2
      = some { lobbyOpen with
               Clients := [(SERVER_ID,
                 NewClient SERVER_ID ignX ORIGIN_TYPE_GUEST enc16)] } :=
  ⟨rfl, rfl, rfl⟩

/-! ## C1 — what the read loop accepts for dispatch -/

/-- C1 (counterexample): the claim states that every message accepted for
handler dispatch on client C's session has `senderID = C.ID`.  With owner
1 (the session client) and guest 2 both active, a frame whose header
carries sender id 2 arriving on the owner's session is accepted and
dispatched acting for client 2, although the session client's id is 1. -/
theorem c1_counterexample :
    ExtractClientIDAndMessageID registryEx msgFromB
      = Except.ok (2, PLAYER_MOVE_EVENT, payloadMove)
    ∧ lobbyDispatch clientsEx registryEx clientA msgFromB
      = StepOutcome.dispatched clientB PLAYER_MOVE_EVENT payloadMove
    ∧ clientA.ID ≠ 2 :=
  ⟨rfl, rfl, by decide⟩

/-- C1 (amended): a message is accepted for handler dispatch exactly when
its header's senderID is a key of the lobby's client map and the spec's
originator permission for the LOADED client's origin type is true — the
loaded client need not be the session client; a message whose senderID is
not in the map is answered with a `SendDebugInfoToClient(…, 401, …)` call
whose target is the nil load result (not the session client) and is not
dispatched; a message whose loaded client lacks the permission is
answered with a 401 debug to that loaded client and is not dispatched. -/
theorem c1_accepted_sender_matches_map (clients : List (Nat × Client))
    (registry : List EventSpecification) (sessionClient : Client)
    (msg : List Nat) :
    (∀ d spec rem,
       lobbyDispatch clients registry sessionClient msg
         = StepOutcome.dispatched d spec rem →
       ∃ sid, ExtractClientIDAndMessageID registry msg
                = Except.ok (sid, spec, rem)
         ∧ loadKey clients sid = some d
         ∧ spec.SendPermissions.get d.type = true)
    ∧ (∀ sid spec rem,
        ExtractClientIDAndMessageID registry msg
          = Except.ok (sid, spec, rem) →
        (loadKey clients sid = none →
          lobbyDispatch clients registry sessionClient msg
            = StepOutcome.sendDebug 401 .toNil)
        ∧ (∀ d, loadKey clients sid = some d →
            spec.SendPermissions.get d.type = false →
            lobbyDispatch clients registry sessionClient msg
              = StepOutcome.sendDebug 401 (.toClient d))) := by
  constructor
  · intro d spec rem h
    unfold lobbyDispatch at h
    cases hE : ExtractClientIDAndMessageID registry msg with
    | error e => rw [hE] at h; simp at h
    | ok t =>
      obtain ⟨sid, spec', rem'⟩ := t
      rw [hE] at h
      simp only at h
      cases hL : loadKey clients sid with
      | none => rw [hL] at h; simp at h
      | some c =>
        rw [hL] at h
        by_cases hp : spec'.SendPermissions.get c.type
        · simp only [hp, Bool.not_true, Bool.false_eq_true, if_false,
            StepOutcome.dispatched.injEq] at h
          obtain ⟨hc, hs, hr⟩ := h
          refine ⟨sid, ?_, ?_, ?_⟩
          · rw [hs, hr]
          · rw [hL, hc]
          · rw [← hs, ← hc]; exact hp
        · simp [hp] at h
  · intro sid spec rem hE
    constructor
    · intro hL
      simp [lobbyDispatch, hE, hL]
    · intro d hL hp
      simp [lobbyDispatch, hE, hL, hp]

/-- C1 (witness): guest 2 sending the server-only event 3004 is answered
with a 401 debug addressed to the loaded guest client, derived from the
amended theorem at the concrete lobby of `clientsEx`. -/
theorem c1_witness :
    lobbyDispatch clientsEx registryEx clientA msgUnauthorized
      = StepOutcome.sendDebug 401 (.toClient clientB) :=
  ((c1_accepted_sender_matches_map clientsEx registryEx clientA
      msgUnauthorized).2 2 GAME_WON_EVENT [] rfl).2 clientB rfl rfl

/-! ## C9 — the unknown-sender branch debugs the nil load result -/

/-- C9: when the header's senderID is not a key of the lobby's client
map, the `Client` value passed to `SendDebugInfoToClient` is the nil
result of the failed load — the loop variable shadows the session's
client — so the 401 debug is not attempted on the originating session's
client. -/
theorem c9_unknown_sender_debug_to_nil (clients : List (Nat × Client))
    (registry : List EventSpecification) (sessionClient : Client)
    (msg : List Nat) (sid : Nat) (spec : EventSpecification)
    (rem : List Nat)
    (hok : ExtractClientIDAndMessageID registry msg
             = Except.ok (sid, spec, rem))
    (hnone : loadKey clients sid = none) :
    lobbyDispatch clients registry sessionClient msg
      = StepOutcome.sendDebug 401 DebugTarget.toNil
    ∧ DebugTarget.toNil ≠ DebugTarget.toClient sessionClient := by
  constructor
  · simp [lobbyDispatch, hok, hnone]
  · intro h
    exact DebugTarget.noConfusion h

/-- C9 (witness): the frame with unknown sender 9 on the owner's session
yields the 401 debug addressed to the nil load result. -/
theorem c9_witness :
    lobbyDispatch clientsEx registryEx clientA msgUnknownSender
      = StepOutcome.sendDebug 401 DebugTarget.toNil
    ∧ DebugTarget.toNil ≠ DebugTarget.toClient clientA :=
  c9_unknown_sender_debug_to_nil clientsEx registryEx clientA
    msgUnknownSender 9 PLAYER_MOVE_EVENT payloadMove rfl rfl

/-! ## C3 — CreateLobby behaviour -/

/-- C3: `CreateLobby` fails and changes nothing when the manager no
longer accepts new lobbies; returns the existing lobby unchanged (no new
id allocated — the whole manager state is untouched) when one with the
same colony id exists; otherwise allocates the next id and inserts a new
lobby whose encoding is the requested one, except that a requested
`MESSAGE_ENCODING_BINARY` is replaced by the runtime default encoding. -/
theorem c3_createLobby_cases (lm : LobbyManager) (ownerID colonyID : Nat)
    (userSetEncoding : MessageEncoding) :
    (lm.acceptsNewLobbies = false →
      CreateLobby lm ownerID colonyID userSetEncoding
        = (lm, Except.error errNotAccepting))
    ∧ (∀ kv, lm.acceptsNewLobbies = true →
        lm.Lobbies.find? (fun p => p.snd.ColonyID == colonyID) = some kv →
        CreateLobby lm ownerID colonyID userSetEncoding
          = (lm, Except.ok kv.snd))
    ∧ (lm.acceptsNewLobbies = true →
        lm.Lobbies.find? (fun p => p.snd.ColonyID == colonyID) = none →
        CreateLobby lm ownerID colonyID userSetEncoding
          = ({ lm with
               nextLobbyID := (lm.nextLobbyID + 1) % UINT32_MOD,
               Lobbies := storeKey lm.Lobbies
                 ((lm.nextLobbyID + 1) % UINT32_MOD)
                 (NewLobby ((lm.nextLobbyID + 1) % UINT32_MOD) ownerID
                   colonyID
                   (if userSetEncoding
                       = MessageEncoding.MESSAGE_ENCODING_BINARY then
                      lm.configuration.Encoding
                    else userSetEncoding)) },
             Except.ok (NewLobby ((lm.nextLobbyID + 1) % UINT32_MOD)
               ownerID colonyID
               (if userSetEncoding
                   = MessageEncoding.MESSAGE_ENCODING_BINARY then
                  lm.configuration.Encoding
                else userSetEncoding)))) := by
  refine ⟨?_, ?_, ?_⟩
  · intro hacc
    simp [CreateLobby, hacc]
  · intro kv hacc hfind
    simp [CreateLobby, hacc, hfind]
  · intro hacc hfind
    simp [CreateLobby, hacc, hfind]

/-- C3 (witness): on a fresh manager with default encoding base16, a
create request asking for the binary encoding yields lobby id 2 carrying
the runtime default base16 encoding. -/
theorem c3_witness :
    (CreateLobby (CreateLobbyManager cfg0) 7 42
        MessageEncoding.MESSAGE_ENCODING_BINARY).2
      = Except.ok (NewLobby 2 7 42 enc16) := by
  have h := (c3_createLobby_cases (CreateLobbyManager cfg0) 7 42
    MessageEncoding.MESSAGE_ENCODING_BINARY).2.2 rfl rfl
  rw [h]
  rfl

/-! ## C4 — a closing lobby rejects all joins -/

/-- C4: once a lobby's `Closing` flag is set, both `IsJoinPossible` and
`JoinLobby` answer with a `LobbyJoinError` of type `JoinErrorClosing` and
the manager state — in particular the lobby's client map — is returned
unchanged. -/
theorem c4_closing_blocks_joins (lm : LobbyManager) (lobbyID : Nat)
    (L : Lobby) (clientID colonyID colonyOwnerID : Nat)
    (clientIGN : String)
    (hload : loadKey lm.Lobbies lobbyID = some L)
    (hclosing : L.Closing = true) :
    IsJoinPossible lm lobbyID clientID colonyID colonyOwnerID
      = some { LobbyID := lobbyID, type := JoinErrorClosing,
               Reason := reasonClosing }
    ∧ JoinLobby lm lobbyID clientID clientIGN
      = { manager := lm
          error := some { LobbyID := lobbyID, type := JoinErrorClosing,
                          Reason := reasonClosing }
          broadcastRecipients := none } := by
  constructor
  · simp [IsJoinPossible, hload, hclosing]
  · simp [JoinLobby, hload, hclosing]


/-- C4 (witness): a join attempt by client 2 against the closing lobby 5
is rejected with the closing error by both checks and the manager is
unchanged. -/
theorem c4_witness :
    IsJoinPossible lmClosed 5 2 42 1
      = some { LobbyID := 5, type := JoinErrorClosing,
               Reason := reasonClosing }
    ∧ JoinLobby lmClosed 5 2 ignB
      = { manager := lmClosed
          error := some { LobbyID := 5, type := JoinErrorClosing,
                          Reason := reasonClosing }
          broadcastRecipients := none } :=
  c4_closing_blocks_joins lmClosed 5 lobbyClosed 2 42 1 ignB rfl rfl

/-! ## C6 — lobby id allocation -/

/-- C6 (counterexample): the claim states that the first lobby created by
a fresh manager receives id 1.  `CreateLobbyManager` stores 1 into the
counter and `nextLobbyID.Add(1)` returns the NEW value, so the first
created lobby receives id 2. -/
theorem c6_counterexample :
    (CreateLobby (CreateLobbyManager cfg0) 7 42 enc16).2
      = Except.ok (NewLobby 2 7 42 enc16)
    ∧ (NewLobby 2 7 42 enc16).ID ≠ 1 :=
  ⟨rfl, by decide⟩

/-- C6 (amended): lobby ids are assigned monotonically starting from 2:
whenever a creation actually allocates (manager accepting, colony fresh)
and the 32-bit counter does not wrap, the new lobby's id is the
incremented counter, strictly larger than the id of every lobby already
registered (hence never reused), and the key-bound invariant
`every registered id ≤ counter` — which holds trivially for the fresh
manager — is preserved, so along any run of creations the ids are
strictly increasing. -/
theorem c6_ids_strictly_monotonic (lm : LobbyManager)
    (ownerID colonyID : Nat) (enc : MessageEncoding)
    (hbound : ∀ kv ∈ lm.Lobbies, kv.fst ≤ lm.nextLobbyID)
    (hacc : lm.acceptsNewLobbies = true)
    (hfresh : lm.Lobbies.find? (fun p => p.snd.ColonyID == colonyID)
                = none)
    (hnowrap : lm.nextLobbyID + 1 < UINT32_MOD) :
    (CreateLobby lm ownerID colonyID enc).2
      = Except.ok (NewLobby (lm.nextLobbyID + 1) ownerID colonyID
          (if enc = MessageEncoding.MESSAGE_ENCODING_BINARY then
             lm.configuration.Encoding
           else enc))
    ∧ (∀ kv ∈ lm.Lobbies, kv.fst < lm.nextLobbyID + 1)
    ∧ (CreateLobby lm ownerID colonyID enc).1.nextLobbyID
        = lm.nextLobbyID + 1
    ∧ (CreateLobby lm ownerID colonyID enc).1.Lobbies
        = lm.Lobbies ++ [(lm.nextLobbyID + 1,
            NewLobby (lm.nextLobbyID + 1) ownerID colonyID
              (if enc = MessageEncoding.MESSAGE_ENCODING_BINARY then
                 lm.configuration.Encoding
               else enc))]
    ∧ (∀ kv ∈ (CreateLobby lm ownerID colonyID enc).1.Lobbies,
         kv.fst ≤ (CreateLobby lm ownerID colonyID enc).1.nextLobbyID) := by
  have hmod : (lm.nextLobbyID + 1) % UINT32_MOD = lm.nextLobbyID + 1 :=
    Nat.mod_eq_of_lt hnowrap
  have hnone : loadKey lm.Lobbies (lm.nextLobbyID + 1) = none := by
    rw [loadKey_eq_none_iff]
    intro kv hkv
    have := hbound kv hkv
    omega
  have hstore := storeKey_of_loadKey_eq_none
    (m := lm.Lobbies) (k := lm.nextLobbyID + 1)
    (NewLobby (lm.nextLobbyID + 1) ownerID colonyID
      (if enc = MessageEncoding.MESSAGE_ENCODING_BINARY then
         lm.configuration.Encoding
       else enc)) hnone
  have hC : CreateLobby lm ownerID colonyID enc
      = ({ lm with
           nextLobbyID := lm.nextLobbyID + 1,
           Lobbies := lm.Lobbies ++ [(lm.nextLobbyID + 1,
             NewLobby (lm.nextLobbyID + 1) ownerID colonyID
               (if enc = MessageEncoding.MESSAGE_ENCODING_BINARY then
                  lm.configuration.Encoding
                else enc))] },
         Except.ok (NewLobby (lm.nextLobbyID + 1) ownerID colonyID
           (if enc = MessageEncoding.MESSAGE_ENCODING_BINARY then
              lm.configuration.Encoding
            else enc))) := by
    simp [CreateLobby, hacc, hfresh, hmod, hstore]
  refine ⟨?_, ?_, ?_, ?_, ?_⟩
  · rw [hC]
  · intro kv hkv
    have := hbound kv hkv
    omega
  · rw [hC]
  · rw [hC]
  · rw [hC]
    intro kv hkv
    have hkv2 : kv ∈ lm.Lobbies ++ [(lm.nextLobbyID + 1,
        NewLobby (lm.nextLobbyID + 1) ownerID colonyID
          (if enc = MessageEncoding.MESSAGE_ENCODING_BINARY then
             lm.configuration.Encoding
           else enc))] := hkv
    show kv.fst ≤ lm.nextLobbyID + 1
    rcases List.mem_append.mp hkv2 with hold | hnew
    · have := hbound kv hold
      omega
    · simp at hnew
      rw [hnew]

/-- C6 (witness): on a fresh manager the very first creation allocates
id 2 and leaves the counter at 2, derived from the amended theorem. -/
theorem c6_witness :
    (CreateLobby (CreateLobbyManager cfg0) 7 43 enc16).2
      = Except.ok (NewLobby 2 7 43 enc16)
    ∧ (CreateLobby (CreateLobbyManager cfg0) 7 43 enc16).1.nextLobbyID
        = 2 := by
  have h := c6_ids_strictly_monotonic (CreateLobbyManager cfg0) 7 43 enc16
    (by intro kv hkv; simp [CreateLobbyManager] at hkv) rfl rfl (by decide)
  exact ⟨h.1.trans rfl, h.2.2.1⟩

/-! ## C7 — the join broadcast precedes the insertion -/

/-- C7: when `JoinLobby` broadcasts the `PLAYER_JOINED` notification, the
recipient snapshot is exactly the keys of the lobby's client map BEFORE
the joining client is stored, and the joiner's id is not among them; the
client is inserted only afterwards. -/
theorem c7_broadcast_before_insert (lm : LobbyManager) (lobbyID : Nat)
    (L : Lobby) (clientID : Nat) (clientIGN : String) (recips : List Nat)
    (hload : loadKey lm.Lobbies lobbyID = some L)
    (hbr : (JoinLobby lm lobbyID clientID clientIGN).broadcastRecipients
             = some recips) :
    recips = keysOf L.Clients
    ∧ clientID ∉ recips
    ∧ (JoinLobby lm lobbyID clientID clientIGN).manager.Lobbies
        = storeKey lm.Lobbies lobbyID (lobbyAfterJoin L clientID clientIGN) := by
  have hnotclosing : L.Closing = false := by
    by_contra hc
    have hc2 : L.Closing = true := by simpa using hc
    simp [JoinLobby, hload, hc2] at hbr
  have hdup : loadKey L.Clients clientID = none := by
    cases hx : loadKey L.Clients clientID with
    | none => rfl
    | some c => simp [JoinLobby, hload, hnotclosing, hx] at hbr
  have hrec : recips = keysOf L.Clients := by
    have h2 := hbr
    simp [JoinLobby, hload, hnotclosing, hdup, SerializePlayerJoined] at h2
    exact h2.symm
  refine ⟨hrec, ?_, ?_⟩
  · rw [hrec]
    exact not_mem_keysOf_of_loadKey_eq_none hdup
  · simp [JoinLobby, hload, hnotclosing, hdup, SerializePlayerJoined,
      lobbyAfterJoin, joinedClient, NewClient]


/-- C7 (witness): guest 2 joining `lobbyJ` is broadcast to the incumbent
owner only — recipient snapshot `[1]`, which does not contain 2. -/
theorem c7_witness :
    ([1] : List Nat) = keysOf lobbyJ.Clients
    ∧ (2 : Nat) ∉ ([1] : List Nat) := by
  have h := c7_broadcast_before_insert lmJoin 5 lobbyJ 2 ignB [1] rfl rfl
  exact ⟨h.1, h.2.1⟩

/-! ## C8 — what UpdateAny changes -/

/-- C8: `UpdateAny` changes `LastKnownPosition` only when the message id
is `PLAYER_MOVE_EVENT.ID` — in that case it stores the u32 read at the
offset and byte size of the event's second structure element (offset 12,
4 bytes, little-endian in the `src/unnamed/part_002` version) — stamps
`MSOfLastMessage` with the current wall-clock milliseconds on every call
regardless of the message id, and modifies nothing else (the state has
exactly these two fields and the equations pin both). -/
theorem c8_updateAny_effect (dcs : DisclosedClientState)
    (messageID : Nat) (remainder : List Nat) (nowInMS : Nat) :
    (messageID ≠ PLAYER_MOVE_EVENT.ID →
      UpdateAny dcs messageID remainder nowInMS
        = { dcs with MSOfLastMessage := nowInMS })
    ∧ (messageID = PLAYER_MOVE_EVENT.ID → 16 ≤ remainder.length →
      UpdateAny dcs messageID remainder nowInMS
        = { LastKnownPosition := leUint32 ((remainder.drop 12).take 4),
            MSOfLastMessage := nowInMS }) := by
  constructor
  · intro hne
    simp [UpdateAny, hne]
  · intro heq _hlen
    simp [UpdateAny, heq]
    rfl


/-- C8 (witness): a non-move message only stamps the clock; a move
message stores location 5 and stamps the clock, both derived from the
effect theorem at concrete inputs. -/
theorem c8_witness :
    UpdateAny dcs0 3004 [] 99
      = { LastKnownPosition := 0, MSOfLastMessage := 99 }
    ∧ UpdateAny dcs0 1002 remMove 777
      = { LastKnownPosition := 5, MSOfLastMessage := 777 } := by
  constructor
  · exact ((c8_updateAny_effect dcs0 3004 [] 99).1 (by decide)).trans rfl
  · exact ((c8_updateAny_effect dcs0 1002 remMove 777).2 rfl
      (by decide)).trans rfl

/-! ## C10 — RemoveClient on an absent client panics -/

/-- C10: `RemoveClient` with a client whose id is absent from the lobby's
client map is not a silent no-op: the Go parameter is reassigned to the
nil result of the failed load and the logging line dereferences it, so
the not-found branch panics; in particular, after a successful removal a
second removal of the same client (disconnect handler plus read-loop
exit) hits exactly this branch. -/
theorem c10_removeClient_absent_panics (lobby : Lobby) (client : Client) :
    (loadKey lobby.Clients client.ID = none →
      RemoveClient lobby client = Except.error panicNilClientDeref)
    ∧ (∀ lobby2 recips, (∀ kv ∈ lobby.Clients, kv.snd.ID = kv.fst) →
        RemoveClient lobby client = Except.ok (lobby2, recips) →
        RemoveClient lobby2 client = Except.error panicNilClientDeref) := by
  constructor
  · intro h
    simp [RemoveClient, h]
  · intro lobby2 recips hwf hok
    cases hload : loadKey lobby.Clients client.ID with
    | none => simp [RemoveClient, hload] at hok
    | some c =>
      have hmem := loadKey_found_key_and_mem hload
      have hcid : c.ID = client.ID := hwf (client.ID, c) hmem
      simp [RemoveClient, hload] at hok
      have hnone2 : loadKey lobby2.Clients client.ID = none := by
        rw [← hok.1]
        rw [hcid]
        exact loadKey_deleteKey_self lobby.Clients client.ID
      simp [RemoveClient, hnone2]


/-- C10 (witness): removing client 2 from the already-emptied lobby (the
state after the first successful removal) panics, and removing the
never-present client 1 panics as well — both derived from the theorem. -/
theorem c10_witness :
    RemoveClient { lobbyRem with Clients := [] } clientB
      = Except.error panicNilClientDeref
    ∧ RemoveClient lobbyRem clientA
      = Except.error panicNilClientDeref := by
  constructor
  · exact (c10_removeClient_absent_panics lobbyRem clientB).2
      { lobbyRem with Clients := [] } [] (by decide) rfl
  · exact (c10_removeClient_absent_panics lobbyRem clientA).1 rfl

end Bsc
